import Mathlib

/-!
# statgo: a Go binding over libstatgrab

Shallow embedding of `statgo.go`.

* A C pointer is an `Option`: `none` is `NULL`.
* Go `int` is the 64-bit two's-complement integer (the array type
  `[1 << 30]C.sg_fs_stats` of `FSInfos` only exists on a 64-bit target); it is an
  `Int`, and every conversion from an unsigned C integer is written with its
  explicit wrap-around.
* A `float64` is carried as its IEEE-754 binary64 bit pattern: the binding only
  copies and prints such values, it never computes with them.
* Every operation returns, next to its result, the ordered list of lock events
  and library accesses it performs.  `Except.error` is a Go run-time panic, not
  a returned error value: no operation of the binding has an error result.
* The library itself (libstatgrab) is outside the repository: what its reads
  return in one operation is the record `Lib`.
-/

namespace Statgo

/-! ## Machine values -/

/-- Conversion `int(x)` of an unsigned 64-bit C integer (`unsigned long long`, `size_t`)
to the 64-bit Go `int`: values from `2^63` on wrap to negative numbers. -/
def intOfUint64 (x : Nat) : Int :=
  if x % 2 ^ 64 < 2 ^ 63 then Int.ofNat (x % 2 ^ 64) else Int.ofNat (x % 2 ^ 64) - 2 ^ 64

/-- Conversion `int(C.uint(x))` of an unsigned 32-bit C integer to the 64-bit Go `int`. -/
def intOfCuint (x : Nat) : Int :=
  Int.ofNat (x % 2 ^ 32)

/-- Go `float64` (and C `double`), carried as the IEEE-754 binary64 bit pattern. -/
structure float64 where
  bits : Nat
  deriving DecidableEq, Repr

/-- Conversion `float64(C.double(x))`: both types are binary64, the bits are kept. -/
def float64OfDouble (x : float64) : float64 :=
  x

/-- `C.GoString(p)`: the text of a C string, the empty string for `NULL`. -/
def GoString (p : Option String) : String :=
  match p with
  | none => ""
  | some s => s

/-- Go `time.Time`, only ever present as the zero value of the unexported fields. -/
structure Time where
  unixNano : Int := 0
  deriving DecidableEq, Repr

/-! ## Records of the library (the fields the binding reads) -/

/-- Modelled from the spec: the C record `sg_host_info` is declared in the header of
libstatgrab, which is not among the sources.  Its fields here are those `Stat.HostInfo`
reads: five texts passed to `C.GoString`, three numbers converted through `C.uint`. -/
structure sg_host_info where
  os_name : Option String
  os_release : Option String
  os_version : Option String
  platform : Option String
  hostname : Option String
  ncpus : Nat
  maxcpus : Nat
  bitwidth : Nat
  deriving DecidableEq, Repr

/-- Modelled from the spec: the C record `sg_cpu_percents` of libstatgrab, with the six
fields `Stat.CPUStats` reads, each converted through `C.double`. -/
structure sg_cpu_percents where
  user : float64
  kernel : float64
  idle : float64
  iowait : float64
  swap : float64
  nice : float64
  deriving DecidableEq, Repr

/-- Modelled from the spec: the C record `sg_load_stats` of libstatgrab, with the three
fields `Stat.CPUStats` reads, each converted through `C.double`. -/
structure sg_load_stats where
  min1 : float64
  min5 : float64
  min15 : float64
  deriving DecidableEq, Repr

/-- Modelled from the spec: the C record `sg_fs_stats` of libstatgrab, with the fields
`Stat.FSInfos` reads: three texts passed to `C.GoString` and eight counts, each an
unsigned 64-bit value converted with `int(..)`. -/
structure sg_fs_stats where
  device_name : Option String
  fs_type : Option String
  mnt_point : Option String
  size : Nat
  used : Nat
  free : Nat
  avail : Nat
  total_inodes : Nat
  used_inodes : Nat
  free_inodes : Nat
  avail_inodes : Nat
  deriving DecidableEq, Repr

/-- What the reads of libstatgrab return during one operation.  `sg_get_fs_stats` returns
the array `fs_stats` and stores its number of elements in `*entries` (zero for `NULL`). -/
structure Lib where
  host_info : Option sg_host_info
  cpu_percents : Option sg_cpu_percents
  load_stats : Option sg_load_stats
  fs_stats : Option (List sg_fs_stats)
  deriving DecidableEq, Repr

/-- The value `sg_get_fs_stats` stores in the `size_t` variable `fs_size`. -/
def Lib.fs_size (lib : Lib) : Nat :=
  match lib.fs_stats with
  | none => 0
  | some a => a.length % 2 ^ 64

/-! ## Records of the binding -/

/-- Stat handle to access libstatgrab. -/
structure Stat where
  cpu_percent : Option sg_cpu_percents := none
  deriving DecidableEq, Repr

/-- HostInfo contains informations related to the system. -/
structure HostInfo where
  OSName : String
  OSRelease : String
  OSVersion : String
  Platform : String
  HostName : String
  NCPUs : Int
  MaxCPUs : Int
  BitWidth : Int
  uptime : Time := {}
  systime : Time := {}
  deriving DecidableEq, Repr

/-- CPUStats contains cpu stats. -/
structure CPUStats where
  User : float64
  Kernel : float64
  Idle : float64
  IOWait : float64
  Swap : float64
  Nice : float64
  LoadMin1 : float64
  LoadMin5 : float64
  LoadMin15 : float64
  timeTaken : Time := {}
  deriving DecidableEq, Repr

/-- FSInfo contains filesystem and mountpoints informations. -/
structure FSInfo where
  DeviceName : String
  FSType : String
  MountPoint : String
  Size : Int
  Used : Int
  Free : Int
  Available : Int
  TotalInodes : Int
  UsedInodes : Int
  FreeInodes : Int
  AvailableInodes : Int
  deriving DecidableEq, Repr

/-! ## Events, panics and outcomes -/

/-- The functions of libstatgrab the binding calls. -/
inductive LibFn where
  | sg_init
  | sg_shutdown
  | sg_get_host_info
  | sg_free_stats_buf
  | sg_snapshot
  | sg_get_cpu_stats_diff
  | sg_get_cpu_percents_of
  | sg_get_load_stats
  | sg_get_fs_stats
  deriving DecidableEq, Repr

/-- The result buffers owned by libstatgrab. -/
inductive Buf where
  | hostInfoBuf
  | cpuPercentBuf
  | loadStatBuf
  | fsStatsBuf
  deriving DecidableEq, Repr

/-- One step of an operation that matters for serialisation: taking or releasing the global
`lock`, a call into the library, or a read of one field of a library-owned buffer. -/
inductive Event where
  | lock
  | unlock
  | call (f : LibFn)
  | bufRead (b : Buf)
  deriving DecidableEq, Repr

/-- Go run-time panics an operation can raise. -/
inductive Panic where
  | nilDereference
  | sliceBounds
  deriving DecidableEq, Repr

/-- What an operation does: its result (or the panic that ends it), the handle afterwards
and the events it emitted, oldest first. -/
structure Outcome (α : Type) where
  result : Except Panic α
  stat : Stat
  trace : List Event

/-! ## Operations -/

/-- NewStat return a new Stat handle. -/
def NewStat : Outcome Stat :=
  let s : Stat := {}
  { result := .ok s, stat := s, trace := [.lock, .call .sg_init, .unlock] }

/-- The composite literal of `Stat.HostInfo`, built from the record `stats` points to. -/
def hostInfoOf (stats : sg_host_info) : HostInfo :=
  { OSName := GoString stats.os_name
    OSRelease := GoString stats.os_release
    OSVersion := GoString stats.os_version
    Platform := GoString stats.platform
    HostName := GoString stats.hostname
    NCPUs := intOfCuint stats.ncpus
    MaxCPUs := intOfCuint stats.maxcpus
    BitWidth := intOfCuint stats.bitwidth }

/-- HostInfo get the host informations.  The lock is released right after the call; the eight
fields are then read through `stats` and the buffer is handed back to the library. -/
def Stat.HostInfo (lib : Lib) (s : Stat) : Outcome HostInfo :=
  let locked : List Event := [.lock, .call .sg_get_host_info, .unlock]
  match lib.host_info with
  | none => { result := .error .nilDereference, stat := s, trace := locked }
  | some stats =>
    { result := .ok (hostInfoOf stats)
      stat := s
      trace := locked ++ List.replicate 8 (.bufRead .hostInfoBuf) ++ [.call .sg_free_stats_buf] }

/-- The composite literal of `Stat.CPUStats`. -/
def cpuStatsOf (p : sg_cpu_percents) (l : sg_load_stats) : CPUStats :=
  { User := float64OfDouble p.user
    Kernel := float64OfDouble p.kernel
    Idle := float64OfDouble p.idle
    IOWait := float64OfDouble p.iowait
    Swap := float64OfDouble p.swap
    Nice := float64OfDouble p.nice
    LoadMin1 := float64OfDouble l.min1
    LoadMin5 := float64OfDouble l.min5
    LoadMin15 := float64OfDouble l.min15 }

/-- CPU returns a CPUStats object.  The unlock is deferred: it is the last event on every
path, a panic included. -/
def Stat.CPUStats (lib : Lib) (s : Stat) : Outcome CPUStats :=
  let calls : List Event :=
    [.lock, .call .sg_snapshot, .call .sg_get_cpu_stats_diff, .call .sg_get_cpu_percents_of,
      .call .sg_snapshot, .call .sg_get_load_stats]
  let s1 : Stat := { s with cpu_percent := lib.cpu_percents }
  match s1.cpu_percent with
  | none => { result := .error .nilDereference, stat := s1, trace := calls ++ [.unlock] }
  | some p =>
    match lib.load_stats with
    | none =>
      { result := .error .nilDereference
        stat := s1
        trace := calls ++ List.replicate 6 (.bufRead .cpuPercentBuf) ++ [.unlock] }
    | some l =>
      { result := .ok (cpuStatsOf p l)
        stat := s1
        trace := calls ++ List.replicate 6 (.bufRead .cpuPercentBuf)
          ++ List.replicate 3 (.bufRead .loadStatBuf) ++ [.unlock] }

/-- The composite literal in the loop of `Stat.FSInfos`. -/
def fsInfoOf (v : sg_fs_stats) : FSInfo :=
  { DeviceName := GoString v.device_name
    FSType := GoString v.fs_type
    MountPoint := GoString v.mnt_point
    Size := intOfUint64 v.size
    Used := intOfUint64 v.used
    Free := intOfUint64 v.free
    Available := intOfUint64 v.avail
    TotalInodes := intOfUint64 v.total_inodes
    UsedInodes := intOfUint64 v.used_inodes
    FreeInodes := intOfUint64 v.free_inodes
    AvailableInodes := intOfUint64 v.avail_inodes }

/-- One iteration of `for _, v := range slice`: eleven field reads, one `append`. -/
def fsLoopStep (acc : List FSInfo × List Event) (v : sg_fs_stats) : List FSInfo × List Event :=
  (acc.1 ++ [fsInfoOf v], acc.2 ++ List.replicate 11 (.bufRead .fsStatsBuf))

/-- The loop of `Stat.FSInfos` over `slice`, starting from the nil slice `res`. -/
def fsLoop (slice : List sg_fs_stats) : List FSInfo × List Event :=
  slice.foldl fsLoopStep ([], [])

/-- FSInfos return an FSInfo struct per mounted filesystem.  Slicing the array pointer
checks it for nil first, then `0 <= length <= 1 << 30`; the unlock is deferred. -/
def Stat.FSInfos (lib : Lib) (s : Stat) : Outcome (List FSInfo) :=
  let calls : List Event := [.lock, .call .sg_get_fs_stats]
  let length : Int := intOfUint64 lib.fs_size
  match lib.fs_stats with
  | none => { result := .error .nilDereference, stat := s, trace := calls ++ [.unlock] }
  | some cArray =>
    if 0 ≤ length ∧ length ≤ 2 ^ 30 then
      let slice := cArray.take length.toNat
      let r := fsLoop slice
      { result := .ok r.1, stat := s, trace := calls ++ r.2 ++ [.unlock] }
    else
      { result := .error .sliceBounds, stat := s, trace := calls ++ [.unlock] }

/-- The finalizer of a handle: one shutdown of the library under the lock. -/
def free (s : Stat) : Outcome Unit :=
  { result := .ok (), stat := s, trace := [.lock, .call .sg_shutdown, .unlock] }

/-! ## Text rendering -/

/-- An operand of `fmt.Sprintf`.  A `float64` operand is given by the text the verb `%f`
prints for it: that text is computed by Go's `fmt`, not by the binding. -/
inductive Arg where
  | str (s : String)
  | int (i : Int)
  | float (shown : String)

/-- The text one verb prints for one operand: `%s` a string verbatim, `%d` an `int` in
decimal with a leading `-` when negative, `%f` a `float64`. -/
def formatVerb : Char → Arg → Option (List Char)
  | 's', .str s => some s.data
  | 'd', .int i => some (toString i).data
  | 'f', .float shown => some shown.data
  | _, _ => none

/-- The scan of `fmt.Sprintf` over the format: a `%` with the next character is a verb and
takes the next operand, every other character is copied.  The fragment needed here has
exactly as many verbs as operands, each of the matching type; `none` outside it. -/
def sprintfAux : List Char → List Arg → Option (List Char)
  | [], [] => some []
  | [], _ :: _ => none
  | c :: rest, args =>
    if c = '%' then
      match rest, args with
      | v :: rest1, a :: args1 =>
        match formatVerb v a, sprintfAux rest1 args1 with
        | some x, some r => some (x ++ r)
        | _, _ => none
      | _, _ => none
    else
      match sprintfAux rest args with
      | some r => some (c :: r)
      | none => none

/-- The fragment of `fmt.Sprintf` used by the three `String` methods. -/
def Sprintf (format : String) (args : List Arg) : String :=
  match sprintfAux format.data args with
  | some cs => String.mk cs
  | none => ""

/-- Rendering of a `CPUStats`; `fmtF` is the text `%f` prints for a `float64`. -/
def CPUStats.String (fmtF : float64 → String) (c : CPUStats) : String :=
  Sprintf
    ("User:\t\t%f\n" ++
      "Kernel:\t\t%f\n" ++
      "Idle:\t\t%f\n" ++
      "IOWait\t\t%f\n" ++
      "Swap:\t\t%f\n" ++
      "Nice:\t\t%f\n" ++
      "LoadMin1:\t%f\n" ++
      "LoadMin5:\t%f\n" ++
      "LoadMin15:\t%f\n")
    [.float (fmtF c.User),
      .float (fmtF c.Kernel),
      .float (fmtF c.Idle),
      .float (fmtF c.IOWait),
      .float (fmtF c.Swap),
      .float (fmtF c.Nice),
      .float (fmtF c.LoadMin1),
      .float (fmtF c.LoadMin5),
      .float (fmtF c.LoadMin15)]

/-- Rendering of a `HostInfo`. -/
def HostInfo.String (h : HostInfo) : String :=
  Sprintf
    ("OSName:\t%s\n" ++
      "OSRelease:\t%s\n" ++
      "OSVersion:\t%s\n" ++
      "Platform:\t%s\n" ++
      "HostName:\t%s\n" ++
      "NCPUs:\t\t%d\n" ++
      "MaxCPUs:\t%d\n" ++
      "BitWidth:\t%d\n")
    [.str h.OSName,
      .str h.OSRelease,
      .str h.OSVersion,
      .str h.Platform,
      .str h.HostName,
      .int h.NCPUs,
      .int h.MaxCPUs,
      .int h.BitWidth]

/-- Rendering of a `FSInfo`. -/
def FSInfo.String (fs : FSInfo) : String :=
  Sprintf
    ("DeviceName:\t%s\n" ++
      "FSType:\t%s\n" ++
      "MountPoint:\t%s\n" ++
      "Size:\t%d\n" ++
      "Used:\t%d\n" ++
      "Free:\t%d\n" ++
      "Available:\t%d\n" ++
      "TotalInodes:\t%d\n" ++
      "UsedInodes:\t%d\n" ++
      "FreeInodes:\t%d\n" ++
      "AvailableInodes:\t%d\n")
    [.str fs.DeviceName,
      .str fs.FSType,
      .str fs.MountPoint,
      .int fs.Size,
      .int fs.Used,
      .int fs.Free,
      .int fs.Available,
      .int fs.TotalInodes,
      .int fs.UsedInodes,
      .int fs.FreeInodes,
      .int fs.AvailableInodes]

/-- One labelled line: the field name, the separator, the value, a newline. -/
def labelled (name sep value : String) : String :=
  name ++ sep ++ value ++ "\n"

/-- The text before the first colon of a line: the key a reader splits off. -/
def keyOfLine (line : String) : String :=
  String.mk (line.data.takeWhile (fun c => c != ':'))

/-- Removal of a leading text, `none` when the line does not start with it. -/
def dropLabel : List Char → List Char → Option (List Char)
  | [], l => some l
  | _ :: _, [] => none
  | p :: ps, c :: cs => if p = c then dropLabel ps cs else none

/-- The shape `name`, a colon, one or more tabs, the value, a newline. -/
def hasLineShape (name line : String) : Bool :=
  match dropLabel name.data line.data with
  | some (':' :: '\t' :: rest) => rest.getLast? == some '\n'
  | _ => false

/-! ## Serialisation of library accesses -/

/-- Where an operation stands with respect to the global lock. -/
inductive LockPhase where
  | before
  | held
  | after
  deriving DecidableEq, Repr

/-- One event seen in a phase: the lock is taken once, from `before`; it is released once,
from `held`; a library call or buffer read is allowed only in `held`. -/
def lockStep : LockPhase → Event → Option LockPhase
  | .before, .lock => some .held
  | .held, .unlock => some .after
  | .held, .call _ => some .held
  | .held, .bufRead _ => some .held
  | _, _ => none

/-- The scan of a trace from a phase, `none` as soon as an event is not allowed. -/
def lockScan : LockPhase → List Event → Option LockPhase
  | p, [] => some p
  | p, e :: es =>
    match lockStep p e with
    | some q => lockScan q es
    | none => none

/-- A trace is serialised when the lock is taken exactly once and released exactly once, and
every call into the library and every buffer read lies between the two. -/
def serialised (t : List Event) : Bool :=
  lockScan .before t == some .after

/-! ## Sessions -/

/-- A session: the handle, and every event emitted on it so far, oldest first. -/
structure Session where
  stat : Stat
  log : List Event
  deriving DecidableEq, Repr

/-- The session right after `NewStat`. -/
def openSession : Session :=
  { stat := NewStat.stat, log := NewStat.trace }

/-- Release of a session: `free` applied to its handle. -/
def close (σ : Session) : Session :=
  { stat := (free σ.stat).stat, log := σ.log ++ (free σ.stat).trace }

/-- Number of library shutdowns recorded in a log. -/
def shutdowns (log : List Event) : Nat :=
  log.count (.call .sg_shutdown)

/-- The value an operation returned, `none` when it ended in a panic. -/
def Outcome.returned {α : Type} (o : Outcome α) : Option α :=
  match o.result with
  | .ok a => some a
  | .error _ => none

/-- The panic that ended an operation, `none` when it returned. -/
def Outcome.panicked {α : Type} (o : Outcome α) : Option Panic :=
  match o.result with
  | .ok _ => none
  | .error e => some e

/-! ## Sample inputs -/

/-- A host record as in the scenario of the specification: four CPUs out of four. -/
def sampleHost : sg_host_info :=
  { os_name := some "Linux", os_release := some "6.1.0", os_version := some "#1 SMP",
    platform := some "x86_64", hostname := some "node1", ncpus := 4, maxcpus := 4,
    bitwidth := 64 }

/-- A host record with more CPUs online than the maximum it reports. -/
def oddHost : sg_host_info :=
  { os_name := some "Linux", os_release := some "6.1.0", os_version := some "#1 SMP",
    platform := some "x86_64", hostname := some "node1", ncpus := 8, maxcpus := 4,
    bitwidth := 64 }

/-- A consistent file-system record. -/
def rootFs : sg_fs_stats :=
  { device_name := some "/dev/sda1", fs_type := some "ext4", mnt_point := some "/",
    size := 1000, used := 600, free := 400, avail := 350,
    total_inodes := 64, used_inodes := 10, free_inodes := 54, avail_inodes := 54 }

/-- A record whose used and free blocks exceed its size, every count below `2^63`. -/
def overfullFs : sg_fs_stats :=
  { device_name := some "tmpfs", fs_type := some "tmpfs", mnt_point := some "/run",
    size := 0, used := 1, free := 1, avail := 0,
    total_inodes := 0, used_inodes := 0, free_inodes := 0, avail_inodes := 0 }

/-- A record with a size of `2^63` blocks and no name. -/
def hugeFs : sg_fs_stats :=
  { device_name := none, fs_type := none, mnt_point := none,
    size := 2 ^ 63, used := 0, free := 0, avail := 0,
    total_inodes := 0, used_inodes := 0, free_inodes := 0, avail_inodes := 0 }

/-- Percentages that are all `+0.0`. -/
def zeroPercents : sg_cpu_percents :=
  { user := ⟨0⟩, kernel := ⟨0⟩, idle := ⟨0⟩, iowait := ⟨0⟩, swap := ⟨0⟩, nice := ⟨0⟩ }

/-- Load averages that are all `+0.0`. -/
def zeroLoad : sg_load_stats :=
  { min1 := ⟨0⟩, min5 := ⟨0⟩, min15 := ⟨0⟩ }

/-- A library whose reads all succeed. -/
def sampleLib : Lib :=
  { host_info := some sampleHost, cpu_percents := some zeroPercents,
    load_stats := some zeroLoad, fs_stats := some [rootFs, overfullFs] }

/-- A library reporting `oddHost` and the two irregular file-system records. -/
def oddLib : Lib :=
  { host_info := some oddHost, cpu_percents := some zeroPercents,
    load_stats := some zeroLoad, fs_stats := some [overfullFs, hugeFs] }

/-- A library whose reads all yield no result. -/
def failingLib : Lib :=
  { host_info := none, cpu_percents := none, load_stats := none, fs_stats := none }


/-! ## Lemmas on the conversions and on the loop -/

theorem intOfUint64_of_lt {x : Nat} (h : x < 2 ^ 63) : intOfUint64 x = (x : Int) := by
  have h1 : x % 2 ^ 64 = x := Nat.mod_eq_of_lt (by omega)
  unfold intOfUint64
  rw [h1, if_pos h]
  rfl

theorem intOfUint64_nonneg_of_lt {x : Nat} (h : x < 2 ^ 63) : 0 ≤ intOfUint64 x := by
  rw [intOfUint64_of_lt h]
  exact Int.ofNat_nonneg x

theorem intOfUint64_of_ge {x : Nat} (h : 2 ^ 63 ≤ x) (hx : x < 2 ^ 64) :
    intOfUint64 x = (x : Int) - 2 ^ 64 := by
  have h1 : x % 2 ^ 64 = x := Nat.mod_eq_of_lt hx
  unfold intOfUint64
  rw [h1, if_neg (by omega)]
  rfl

theorem GoString_of_eq_some {p : Option String} {n : String} (h : p = some n) :
    GoString p = n := by
  rw [h]
  rfl

theorem GoString_of_eq_none {p : Option String} (h : p = none) : GoString p = "" := by
  rw [h]
  rfl

theorem intOfCuint_of_lt {x : Nat} (h : x < 2 ^ 32) : intOfCuint x = (x : Int) := by
  unfold intOfCuint
  rw [Nat.mod_eq_of_lt h]
  rfl

theorem fsLoop_foldl (l : List sg_fs_stats) (acc : List FSInfo × List Event) :
    l.foldl fsLoopStep acc
      = (acc.1 ++ l.map fsInfoOf,
          acc.2 ++ List.replicate (11 * l.length) (Event.bufRead Buf.fsStatsBuf)) := by
  induction l generalizing acc with
  | nil => simp
  | cons v vs ih =>
    rw [List.foldl_cons, ih]
    simp only [fsLoopStep, List.map_cons, List.length_cons, List.append_assoc,
      List.singleton_append]
    congr 2

theorem fsLoop_eq (l : List sg_fs_stats) :
    fsLoop l = (l.map fsInfoOf, List.replicate (11 * l.length) (Event.bufRead Buf.fsStatsBuf)) := by
  unfold fsLoop
  rw [fsLoop_foldl]
  simp

theorem fs_length_of_le {arr : List sg_fs_stats} {lib : Lib} (h : lib.fs_stats = some arr)
    (hn : arr.length ≤ 2 ^ 30) : intOfUint64 lib.fs_size = (arr.length : Int) := by
  have h1 : lib.fs_size = arr.length % 2 ^ 64 := by
    unfold Lib.fs_size
    rw [h]
  have h2 : arr.length % 2 ^ 64 = arr.length := Nat.mod_eq_of_lt (by omega)
  rw [h1, h2]
  exact intOfUint64_of_lt (by omega)

/-- With an array of at most `2^30` records, `FSInfos` returns the converted array. -/
theorem FSInfos_of_array (lib : Lib) (s : Stat) (arr : List sg_fs_stats)
    (h : lib.fs_stats = some arr) (hn : arr.length ≤ 2 ^ 30) :
    Stat.FSInfos lib s
      = { result := .ok (arr.map fsInfoOf)
          stat := s
          trace := [Event.lock, Event.call LibFn.sg_get_fs_stats]
            ++ List.replicate (11 * arr.length) (Event.bufRead Buf.fsStatsBuf)
            ++ [Event.unlock] } := by
  have hl := fs_length_of_le h hn
  unfold Stat.FSInfos
  simp only [h, hl]
  have hc : (0 : Int) ≤ (arr.length : Int) ∧ (arr.length : Int) ≤ 2 ^ 30 := by
    constructor
    · exact Int.ofNat_nonneg _
    · exact_mod_cast hn
  rw [if_pos hc]
  simp [fsLoop_eq]


/-! ## C5: counts of a file-system record -/

/-- C5, counterexample: for the array `[overfullFs, hugeFs]` the first returned record has
`Used + Free = 2` above `Size = 0`, and the second has the negative `Size = -2^63`. -/
theorem C5_counterexample :
    (Stat.FSInfos oddLib {}).returned = some [fsInfoOf overfullFs, fsInfoOf hugeFs]
      ∧ ¬ ((fsInfoOf overfullFs).Used + (fsInfoOf overfullFs).Free ≤ (fsInfoOf overfullFs).Size)
      ∧ (fsInfoOf hugeFs).Size < 0 := by
  refine ⟨?_, ?_, ?_⟩
  · rw [FSInfos_of_array oddLib {} [overfullFs, hugeFs] rfl (by decide)]
    rfl
  · decide
  · decide

/-- C5, amended: for an array of at most `2^30` records whose counts are all below `2^63`,
`FSInfos` returns one record per entry, in order; each of the eight counts of the `i`-th
returned record equals the raw count of the `i`-th entry, hence every count of every
returned record is non-negative, and `Used + Free <= Size` holds in a returned record
exactly when `used + free <= size` holds in the raw entry it comes from. -/
theorem C5_counts_follow_raw (lib : Lib) (s : Stat) (arr : List sg_fs_stats)
    (h : lib.fs_stats = some arr) (hn : arr.length ≤ 2 ^ 30)
    (hb : ∀ v ∈ arr, v.size < 2 ^ 63 ∧ v.used < 2 ^ 63 ∧ v.free < 2 ^ 63 ∧ v.avail < 2 ^ 63
      ∧ v.total_inodes < 2 ^ 63 ∧ v.used_inodes < 2 ^ 63 ∧ v.free_inodes < 2 ^ 63
      ∧ v.avail_inodes < 2 ^ 63) :
    ∃ res : List FSInfo, (Stat.FSInfos lib s).returned = some res
      ∧ res = arr.map fsInfoOf
      ∧ res.length = arr.length
      ∧ (∀ (i : Nat) (v : sg_fs_stats), arr[i]? = some v → ∃ f : FSInfo, res[i]? = some f
          ∧ f.Size = (v.size : Int) ∧ f.Used = (v.used : Int) ∧ f.Free = (v.free : Int)
          ∧ f.Available = (v.avail : Int) ∧ f.TotalInodes = (v.total_inodes : Int)
          ∧ f.UsedInodes = (v.used_inodes : Int) ∧ f.FreeInodes = (v.free_inodes : Int)
          ∧ f.AvailableInodes = (v.avail_inodes : Int)
          ∧ (f.Used + f.Free ≤ f.Size ↔ v.used + v.free ≤ v.size))
      ∧ ∀ f ∈ res, 0 ≤ f.Size ∧ 0 ≤ f.Used ∧ 0 ≤ f.Free ∧ 0 ≤ f.Available
          ∧ 0 ≤ f.TotalInodes ∧ 0 ≤ f.UsedInodes ∧ 0 ≤ f.FreeInodes
          ∧ 0 ≤ f.AvailableInodes := by
  refine ⟨arr.map fsInfoOf, ?_, rfl, List.length_map arr fsInfoOf, ?_, ?_⟩
  · rw [FSInfos_of_array lib s arr h hn]
    rfl
  · intro i v hv
    obtain ⟨h1, h2, h3, h4, h5, h6, h7, h8⟩ := hb v (List.getElem?_mem hv)
    refine ⟨fsInfoOf v, ?_, intOfUint64_of_lt h1, intOfUint64_of_lt h2, intOfUint64_of_lt h3,
      intOfUint64_of_lt h4, intOfUint64_of_lt h5, intOfUint64_of_lt h6, intOfUint64_of_lt h7,
      intOfUint64_of_lt h8, ?_⟩
    · rw [List.getElem?_map, hv]
      rfl
    · show intOfUint64 v.used + intOfUint64 v.free ≤ intOfUint64 v.size ↔ _
      rw [intOfUint64_of_lt h1, intOfUint64_of_lt h2, intOfUint64_of_lt h3]
      omega
  · intro f hf
    obtain ⟨v, hv, rfl⟩ := List.mem_map.mp hf
    obtain ⟨h1, h2, h3, h4, h5, h6, h7, h8⟩ := hb v hv
    exact ⟨intOfUint64_nonneg_of_lt h1, intOfUint64_nonneg_of_lt h2,
      intOfUint64_nonneg_of_lt h3, intOfUint64_nonneg_of_lt h4, intOfUint64_nonneg_of_lt h5,
      intOfUint64_nonneg_of_lt h6, intOfUint64_nonneg_of_lt h7, intOfUint64_nonneg_of_lt h8⟩

/-- C5, witness: the amended statement at the one-record array `[rootFs]`, whose record comes
back with `Size = 1000`, `Used = 600` and `Free = 400`. -/
theorem C5_counts_follow_raw_witness :
    [rootFs].length ≤ 2 ^ 30
      ∧ ∃ res : List FSInfo,
        (Stat.FSInfos { sampleLib with fs_stats := some [rootFs] } {}).returned = some res
        ∧ res.length = 1
        ∧ (∃ f : FSInfo, res[0]? = some f ∧ f.Size = 1000 ∧ f.Used = 600 ∧ f.Free = 400
            ∧ f.Used + f.Free ≤ f.Size)
        ∧ ∀ f ∈ res, 0 ≤ f.Size ∧ 0 ≤ f.Used ∧ 0 ≤ f.Free := by
  refine ⟨by decide, ?_⟩
  obtain ⟨res, hr, _, hl, hi, hp⟩ :=
    C5_counts_follow_raw { sampleLib with fs_stats := some [rootFs] } {} [rootFs] rfl
      (by decide) (by intro v hv; rw [List.mem_singleton] at hv; subst hv; decide)
  obtain ⟨f, hf, e1, e2, e3, -, -, -, -, -, hiff⟩ := hi 0 rootFs rfl
  refine ⟨res, hr, hl, ⟨f, hf, e1, e2, e3, hiff.mpr (by decide)⟩, ?_⟩
  intro g hg
  obtain ⟨g1, g2, g3, -⟩ := hp g hg
  exact ⟨g1, g2, g3⟩

/-! ## C6: CPU counts of a host record -/

/-- C6, counterexample: for the raw record `oddHost` (8 CPUs, maximum 4) `HostInfo` returns
`NCPUs = 8` and `MaxCPUs = 4`. -/
theorem C6_counterexample :
    (Stat.HostInfo oddLib {}).returned = some (hostInfoOf oddHost)
      ∧ (hostInfoOf oddHost).NCPUs = 8 ∧ (hostInfoOf oddHost).MaxCPUs = 4
      ∧ ¬ ((hostInfoOf oddHost).NCPUs ≤ (hostInfoOf oddHost).MaxCPUs) := by
  refine ⟨rfl, by decide, by decide, by decide⟩

/-- C6, amended: `HostInfo` copies the two 32-bit counts of the raw record unchanged, so
`NCPUs <= MaxCPUs` holds in the result exactly when `ncpus <= maxcpus` holds in the raw
record. -/
theorem C6_ncpus_le_maxcpus_iff (lib : Lib) (s : Stat) (stats : sg_host_info)
    (h : lib.host_info = some stats) (hn : stats.ncpus < 2 ^ 32) (hm : stats.maxcpus < 2 ^ 32) :
    ∃ hi, (Stat.HostInfo lib s).returned = some hi
      ∧ hi.NCPUs = (stats.ncpus : Int) ∧ hi.MaxCPUs = (stats.maxcpus : Int)
      ∧ (hi.NCPUs ≤ hi.MaxCPUs ↔ stats.ncpus ≤ stats.maxcpus) := by
  refine ⟨hostInfoOf stats, ?_, intOfCuint_of_lt hn, intOfCuint_of_lt hm, ?_⟩
  · unfold Stat.HostInfo
    simp only [h]
    rfl
  · show intOfCuint stats.ncpus ≤ intOfCuint stats.maxcpus ↔ _
    rw [intOfCuint_of_lt hn, intOfCuint_of_lt hm]
    omega

/-- C6, witness: the amended statement at the record `sampleHost`. -/
theorem C6_ncpus_le_maxcpus_iff_witness :
    ∃ hi, (Stat.HostInfo sampleLib {}).returned = some hi
      ∧ hi.NCPUs = (sampleHost.ncpus : Int) ∧ hi.MaxCPUs = (sampleHost.maxcpus : Int)
      ∧ (hi.NCPUs ≤ hi.MaxCPUs ↔ sampleHost.ncpus ≤ sampleHost.maxcpus) :=
  C6_ncpus_le_maxcpus_iff sampleLib {} sampleHost rfl (by decide) (by decide)


/-! ## C7: one record per array element -/

/-- C7: for an array of `n <= 2^30` raw records `FSInfos` returns exactly `n` records in the
order of the array; the `i`-th one holds the device name, file-system type and mount point
of the `i`-th entry unchanged (the empty text for a `NULL` one) and its eight counts
converted to `int`: equal to the raw count whenever that one is below `2^63`, the raw count
minus `2^64` from there on; for the empty array the result is empty. -/
theorem C7_one_record_per_entry (lib : Lib) (s : Stat) (arr : List sg_fs_stats)
    (h : lib.fs_stats = some arr) (hn : arr.length ≤ 2 ^ 30) :
    ∃ res, (Stat.FSInfos lib s).returned = some res
      ∧ res.length = arr.length
      ∧ (arr = [] → res = [])
      ∧ ∀ (i : Nat) (v : sg_fs_stats), arr[i]? = some v → ∃ f : FSInfo, res[i]? = some f
        ∧ f.DeviceName = GoString v.device_name ∧ f.FSType = GoString v.fs_type
        ∧ f.MountPoint = GoString v.mnt_point
        ∧ f.Size = intOfUint64 v.size ∧ f.Used = intOfUint64 v.used
        ∧ f.Free = intOfUint64 v.free ∧ f.Available = intOfUint64 v.avail
        ∧ f.TotalInodes = intOfUint64 v.total_inodes
        ∧ f.UsedInodes = intOfUint64 v.used_inodes
        ∧ f.FreeInodes = intOfUint64 v.free_inodes
        ∧ f.AvailableInodes = intOfUint64 v.avail_inodes
        ∧ (v.size < 2 ^ 63 → f.Size = (v.size : Int))
        ∧ (v.used < 2 ^ 63 → f.Used = (v.used : Int))
        ∧ (v.free < 2 ^ 63 → f.Free = (v.free : Int))
        ∧ (v.avail < 2 ^ 63 → f.Available = (v.avail : Int))
        ∧ (v.total_inodes < 2 ^ 63 → f.TotalInodes = (v.total_inodes : Int))
        ∧ (v.used_inodes < 2 ^ 63 → f.UsedInodes = (v.used_inodes : Int))
        ∧ (v.free_inodes < 2 ^ 63 → f.FreeInodes = (v.free_inodes : Int))
        ∧ (v.avail_inodes < 2 ^ 63 → f.AvailableInodes = (v.avail_inodes : Int))
        ∧ (∀ n : String, v.device_name = some n → f.DeviceName = n)
        ∧ (∀ n : String, v.fs_type = some n → f.FSType = n)
        ∧ (∀ n : String, v.mnt_point = some n → f.MountPoint = n)
        ∧ (v.device_name = none → f.DeviceName = "")
        ∧ (v.fs_type = none → f.FSType = "")
        ∧ (v.mnt_point = none → f.MountPoint = "")
        ∧ (2 ^ 63 ≤ v.size → v.size < 2 ^ 64 → f.Size = (v.size : Int) - 2 ^ 64)
        ∧ (2 ^ 63 ≤ v.used → v.used < 2 ^ 64 → f.Used = (v.used : Int) - 2 ^ 64)
        ∧ (2 ^ 63 ≤ v.free → v.free < 2 ^ 64 → f.Free = (v.free : Int) - 2 ^ 64)
        ∧ (2 ^ 63 ≤ v.avail → v.avail < 2 ^ 64 → f.Available = (v.avail : Int) - 2 ^ 64)
        ∧ (2 ^ 63 ≤ v.total_inodes → v.total_inodes < 2 ^ 64 →
            f.TotalInodes = (v.total_inodes : Int) - 2 ^ 64)
        ∧ (2 ^ 63 ≤ v.used_inodes → v.used_inodes < 2 ^ 64 →
            f.UsedInodes = (v.used_inodes : Int) - 2 ^ 64)
        ∧ (2 ^ 63 ≤ v.free_inodes → v.free_inodes < 2 ^ 64 →
            f.FreeInodes = (v.free_inodes : Int) - 2 ^ 64)
        ∧ (2 ^ 63 ≤ v.avail_inodes → v.avail_inodes < 2 ^ 64 →
            f.AvailableInodes = (v.avail_inodes : Int) - 2 ^ 64) := by
  refine ⟨arr.map fsInfoOf, ?_, List.length_map arr fsInfoOf, ?_, ?_⟩
  · rw [FSInfos_of_array lib s arr h hn]
    rfl
  · intro he
    rw [he]
    rfl
  · intro i v hv
    refine ⟨fsInfoOf v, ?_, rfl, rfl, rfl, rfl, rfl, rfl, rfl, rfl, rfl, rfl, rfl,
      intOfUint64_of_lt, intOfUint64_of_lt, intOfUint64_of_lt, intOfUint64_of_lt,
      intOfUint64_of_lt, intOfUint64_of_lt, intOfUint64_of_lt, intOfUint64_of_lt,
      fun _ hd => GoString_of_eq_some hd, fun _ hd => GoString_of_eq_some hd,
      fun _ hd => GoString_of_eq_some hd,
      GoString_of_eq_none, GoString_of_eq_none, GoString_of_eq_none,
      intOfUint64_of_ge, intOfUint64_of_ge, intOfUint64_of_ge, intOfUint64_of_ge,
      intOfUint64_of_ge, intOfUint64_of_ge, intOfUint64_of_ge, intOfUint64_of_ge⟩
    rw [List.getElem?_map, hv]
    rfl

/-- C7, witness: the statement at the two-record array of `sampleLib`: two records come
back, and the second one carries the texts `tmpfs`, `tmpfs`, `/run` and the counts `0`, `1`,
`1` of the second entry. -/
theorem C7_one_record_per_entry_witness :
    [rootFs, overfullFs].length ≤ 2 ^ 30
      ∧ ∃ res, (Stat.FSInfos sampleLib {}).returned = some res
        ∧ res.length = 2
        ∧ ∃ f : FSInfo, res[1]? = some f
          ∧ f.DeviceName = "tmpfs" ∧ f.FSType = "tmpfs" ∧ f.MountPoint = "/run"
          ∧ f.Size = 0 ∧ f.Used = 1 ∧ f.Free = 1 := by
  refine ⟨by decide, ?_⟩
  obtain ⟨res, hr, hl, _, hi⟩ :=
    C7_one_record_per_entry sampleLib {} [rootFs, overfullFs] rfl (by decide)
  obtain ⟨f, hf, -, -, -, -, -, -, -, -, -, -, -, s1, s2, s3, -, -, -, -, -, t1, t2, t3, -⟩ :=
    hi 1 overfullFs rfl
  exact ⟨res, hr, hl, f, hf, t1 "tmpfs" rfl, t2 "tmpfs" rfl, t3 "/run" rfl,
    s1 (by decide), s2 (by decide), s3 (by decide)⟩

/-! ## C4: the lock around library accesses -/

theorem lockScan_held_reads (n : Nat) (b : Buf) (rest : List Event) :
    lockScan .held (List.replicate n (Event.bufRead b) ++ rest) = lockScan .held rest := by
  induction n with
  | zero => rfl
  | succ k ih =>
    rw [List.replicate_succ, List.cons_append]
    show lockScan .held (List.replicate k (Event.bufRead b) ++ rest) = _
    exact ih

theorem CPUStats_serialised (lib : Lib) (s : Stat) :
    serialised (Stat.CPUStats lib s).trace = true := by
  unfold Stat.CPUStats
  cases lib.cpu_percents with
  | none => rfl
  | some p =>
    cases lib.load_stats with
    | none => rfl
    | some l => rfl

theorem FSInfos_serialised (lib : Lib) (s : Stat) :
    serialised (Stat.FSInfos lib s).trace = true := by
  unfold Stat.FSInfos
  cases lib.fs_stats with
  | none => rfl
  | some arr =>
    simp only
    split
    · simp only [fsLoop_eq, serialised, List.append_assoc]
      show (lockScan .held (List.replicate _ (Event.bufRead Buf.fsStatsBuf) ++ [Event.unlock])
        == some LockPhase.after) = true
      rw [lockScan_held_reads]
      rfl
    · rfl

theorem HostInfo_trace (lib : Lib) (s : Stat) (stats : sg_host_info)
    (h : lib.host_info = some stats) :
    (Stat.HostInfo lib s).trace
      = [Event.lock, Event.call LibFn.sg_get_host_info, Event.unlock,
          Event.bufRead Buf.hostInfoBuf, Event.bufRead Buf.hostInfoBuf,
          Event.bufRead Buf.hostInfoBuf, Event.bufRead Buf.hostInfoBuf,
          Event.bufRead Buf.hostInfoBuf, Event.bufRead Buf.hostInfoBuf,
          Event.bufRead Buf.hostInfoBuf, Event.bufRead Buf.hostInfoBuf,
          Event.call LibFn.sg_free_stats_buf] := by
  unfold Stat.HostInfo
  simp only [h]
  rfl

/-- C4: `NewStat`, `CPUStats`, `FSInfos` and `free` take the lock once, release it once and
access the library only in between, on every path.  `HostInfo` does not: whenever
`sg_get_host_info` yields a record, its trace is lock, the call, unlock, then eight reads of
the library-owned record and the call `sg_free_stats_buf`, all nine after the unlock. -/
theorem C4_host_info_accesses_after_unlock :
    serialised NewStat.trace = true
      ∧ (∀ (lib : Lib) (s : Stat), serialised (Stat.CPUStats lib s).trace = true)
      ∧ (∀ (lib : Lib) (s : Stat), serialised (Stat.FSInfos lib s).trace = true)
      ∧ (∀ s : Stat, serialised (free s).trace = true)
      ∧ ∀ (lib : Lib) (s : Stat) (stats : sg_host_info), lib.host_info = some stats →
          serialised (Stat.HostInfo lib s).trace = false
          ∧ (Stat.HostInfo lib s).trace.drop 3
            = List.replicate 8 (Event.bufRead Buf.hostInfoBuf)
              ++ [Event.call LibFn.sg_free_stats_buf]
          ∧ (Stat.HostInfo lib s).trace.take 3
            = [Event.lock, Event.call LibFn.sg_get_host_info, Event.unlock] := by
  refine ⟨rfl, CPUStats_serialised, FSInfos_serialised, fun _ => rfl, ?_⟩
  intro lib s stats h
  rw [HostInfo_trace lib s stats h]
  exact ⟨rfl, rfl, rfl⟩

/-- C4, witness: the trace of `HostInfo` on `sampleLib`. -/
theorem C4_host_info_accesses_after_unlock_witness :
    sampleLib.host_info = some sampleHost
      ∧ serialised (Stat.HostInfo sampleLib {}).trace = false
      ∧ (Stat.HostInfo sampleLib {}).trace.drop 3
        = List.replicate 8 (Event.bufRead Buf.hostInfoBuf)
          ++ [Event.call LibFn.sg_free_stats_buf] :=
  ⟨rfl,
    (C4_host_info_accesses_after_unlock.2.2.2.2 sampleLib {} sampleHost rfl).1,
    (C4_host_info_accesses_after_unlock.2.2.2.2 sampleLib {} sampleHost rfl).2.1⟩

/-! ## C8: releasing a session twice -/

/-- C8, counterexample: on the session opened by `NewStat`, a second `close` changes the
session again: the log holds two library shutdowns instead of one. -/
theorem C8_counterexample :
    close (close openSession) ≠ close openSession
      ∧ shutdowns (close openSession).log = 1
      ∧ shutdowns (close (close openSession)).log = 2 := by
  decide

/-- C8, amended: every application of `free` takes the lock, calls `sg_shutdown` once and
releases the lock, whatever happened before; it leaves the handle itself unchanged.  A
second close therefore performs one more library shutdown than the first. -/
theorem C8_free_shuts_down_every_time (σ : Session) :
    (close σ).stat = σ.stat
      ∧ (close σ).log = σ.log ++ [Event.lock, Event.call LibFn.sg_shutdown, Event.unlock]
      ∧ shutdowns (close σ).log = shutdowns σ.log + 1
      ∧ shutdowns (close (close σ)).log = shutdowns σ.log + 2
      ∧ (close (close σ)).stat = (close σ).stat := by
  have h1 : ∀ τ : Session, shutdowns (close τ).log = shutdowns τ.log + 1 := by
    intro τ
    simp [close, free, shutdowns, List.count_append]
  refine ⟨rfl, rfl, h1 σ, ?_, rfl⟩
  rw [h1 (close σ), h1 σ]


/-! ## C2 and C3: what the operations return -/

theorem CPUStats_of_results (lib : Lib) (s : Stat) (p : sg_cpu_percents) (l : sg_load_stats)
    (hp : lib.cpu_percents = some p) (hl : lib.load_stats = some l) :
    (Stat.CPUStats lib s).returned = some (cpuStatsOf p l) := by
  unfold Stat.CPUStats
  simp only [hp, hl]
  rfl

/-- C2, counterexample: on the handle fresh from `NewStat`, with a library reporting `+0.0`
for every percentage, the first `CPUStats` call returns `+0.0` in all six percentage
fields, the very record a second call returns; and with a library whose read yields no
result, the first call ends in a nil-dereference panic. -/
theorem C2_counterexample :
    (Stat.CPUStats sampleLib NewStat.stat).returned
        = some { User := ⟨0⟩, Kernel := ⟨0⟩, Idle := ⟨0⟩, IOWait := ⟨0⟩, Swap := ⟨0⟩,
                 Nice := ⟨0⟩, LoadMin1 := ⟨0⟩, LoadMin5 := ⟨0⟩, LoadMin15 := ⟨0⟩ }
      ∧ (Stat.CPUStats sampleLib (Stat.CPUStats sampleLib NewStat.stat).stat).returned
        = (Stat.CPUStats sampleLib NewStat.stat).returned
      ∧ (Stat.CPUStats failingLib NewStat.stat).panicked = some Panic.nilDereference := by
  decide

/-- C2, amended: whenever `sg_get_cpu_percents_of` and `sg_get_load_stats` yield a result,
every `CPUStats` call, the first one on a fresh handle included, returns the six
percentages bit for bit as the library reported them; the result does not depend on the
state of the handle, and no value is replaced by a sentinel or by zero. -/
theorem C2_percentages_are_the_library_values (lib : Lib) (s : Stat) (p : sg_cpu_percents)
    (l : sg_load_stats) (hp : lib.cpu_percents = some p) (hl : lib.load_stats = some l) :
    ∃ c : CPUStats, (Stat.CPUStats lib s).returned = some c
      ∧ (Stat.CPUStats lib NewStat.stat).returned = some c
      ∧ c.User = p.user ∧ c.Kernel = p.kernel ∧ c.Idle = p.idle ∧ c.IOWait = p.iowait
      ∧ c.Swap = p.swap ∧ c.Nice = p.nice := by
  exact ⟨cpuStatsOf p l, CPUStats_of_results lib s p l hp hl,
    CPUStats_of_results lib NewStat.stat p l hp hl, rfl, rfl, rfl, rfl, rfl, rfl⟩

/-- C2, witness: the amended statement on `sampleLib` and a fresh handle. -/
theorem C2_percentages_are_the_library_values_witness :
    sampleLib.cpu_percents = some zeroPercents ∧ sampleLib.load_stats = some zeroLoad
      ∧ ∃ c : CPUStats, (Stat.CPUStats sampleLib NewStat.stat).returned = some c
        ∧ (Stat.CPUStats sampleLib NewStat.stat).returned = some c
        ∧ c.User = zeroPercents.user ∧ c.Kernel = zeroPercents.kernel
        ∧ c.Idle = zeroPercents.idle ∧ c.IOWait = zeroPercents.iowait
        ∧ c.Swap = zeroPercents.swap ∧ c.Nice = zeroPercents.nice :=
  ⟨rfl, rfl,
    C2_percentages_are_the_library_values sampleLib NewStat.stat zeroPercents zeroLoad rfl rfl⟩

/-- C3, counterexample: with a library whose reads yield no result, `HostInfo`, `FSInfos`
and `CPUStats` each end in a nil-dereference panic and return nothing, and so does
`CPUStats` when only `sg_get_load_stats` yields no result. -/
theorem C3_counterexample :
    (Stat.HostInfo failingLib {}).result = .error Panic.nilDereference
      ∧ (Stat.FSInfos failingLib {}).result = .error Panic.nilDereference
      ∧ (Stat.CPUStats failingLib {}).result = .error Panic.nilDereference
      ∧ (Stat.CPUStats { sampleLib with load_stats := none } {}).result
        = .error Panic.nilDereference :=
  ⟨rfl, rfl, rfl, rfl⟩

/-- C3, amended: whenever an underlying library read yields no result, the corresponding
operation `HostInfo`, `FSInfos` or `CPUStats` returns no record at all, so never a zero,
default or empty record in the place of a valid reading. -/
theorem C3_no_record_on_failed_read (lib : Lib) (s : Stat) :
    (lib.host_info = none → (Stat.HostInfo lib s).returned = none)
      ∧ (lib.fs_stats = none → (Stat.FSInfos lib s).returned = none)
      ∧ (lib.cpu_percents = none ∨ lib.load_stats = none →
          (Stat.CPUStats lib s).returned = none) := by
  refine ⟨?_, ?_, ?_⟩
  · intro h
    unfold Stat.HostInfo
    simp only [h]
    rfl
  · intro h
    unfold Stat.FSInfos
    simp only [h]
    rfl
  · intro h
    unfold Stat.CPUStats
    cases hp : lib.cpu_percents with
    | none => rfl
    | some p =>
      cases hl : lib.load_stats with
      | none => rfl
      | some l =>
        rw [hp, hl] at h
        simp at h

/-- C3, witness: the amended statement on `failingLib`. -/
theorem C3_no_record_on_failed_read_witness :
    failingLib.host_info = none ∧ failingLib.fs_stats = none
      ∧ (failingLib.cpu_percents = none ∨ failingLib.load_stats = none)
      ∧ (Stat.HostInfo failingLib {}).returned = none
      ∧ (Stat.FSInfos failingLib {}).returned = none
      ∧ (Stat.CPUStats failingLib {}).returned = none :=
  ⟨rfl, rfl, Or.inl rfl,
    (C3_no_record_on_failed_read failingLib {}).1 rfl,
    (C3_no_record_on_failed_read failingLib {}).2.1 rfl,
    (C3_no_record_on_failed_read failingLib {}).2.2 (Or.inl rfl)⟩


/-! ## C9 and C10: the text renderings -/

theorem HostInfo_String_eq (h : HostInfo) :
    h.String = String.join
      [labelled "OSName" ":\t" h.OSName,
        labelled "OSRelease" ":\t" h.OSRelease,
        labelled "OSVersion" ":\t" h.OSVersion,
        labelled "Platform" ":\t" h.Platform,
        labelled "HostName" ":\t" h.HostName,
        labelled "NCPUs" ":\t\t" (toString h.NCPUs),
        labelled "MaxCPUs" ":\t" (toString h.MaxCPUs),
        labelled "BitWidth" ":\t" (toString h.BitWidth)] := by
  apply String.ext
  simp [HostInfo.String, Sprintf, sprintfAux, formatVerb, labelled, String.join]

set_option maxRecDepth 8000 in
theorem FSInfo_String_eq (fs : FSInfo) :
    fs.String = String.join
      [labelled "DeviceName" ":\t" fs.DeviceName,
        labelled "FSType" ":\t" fs.FSType,
        labelled "MountPoint" ":\t" fs.MountPoint,
        labelled "Size" ":\t" (toString fs.Size),
        labelled "Used" ":\t" (toString fs.Used),
        labelled "Free" ":\t" (toString fs.Free),
        labelled "Available" ":\t" (toString fs.Available),
        labelled "TotalInodes" ":\t" (toString fs.TotalInodes),
        labelled "UsedInodes" ":\t" (toString fs.UsedInodes),
        labelled "FreeInodes" ":\t" (toString fs.FreeInodes),
        labelled "AvailableInodes" ":\t" (toString fs.AvailableInodes)] := by
  apply String.ext
  simp [FSInfo.String, Sprintf, sprintfAux, formatVerb, labelled, String.join]

theorem CPUStats_String_eq (fmtF : float64 → String) (c : CPUStats) :
    c.String fmtF = String.join
      [labelled "User" ":\t\t" (fmtF c.User),
        labelled "Kernel" ":\t\t" (fmtF c.Kernel),
        labelled "Idle" ":\t\t" (fmtF c.Idle),
        labelled "IOWait" "\t\t" (fmtF c.IOWait),
        labelled "Swap" ":\t\t" (fmtF c.Swap),
        labelled "Nice" ":\t\t" (fmtF c.Nice),
        labelled "LoadMin1" ":\t" (fmtF c.LoadMin1),
        labelled "LoadMin5" ":\t" (fmtF c.LoadMin5),
        labelled "LoadMin15" ":\t" (fmtF c.LoadMin15)] := by
  apply String.ext
  simp [CPUStats.String, Sprintf, sprintfAux, formatVerb, labelled, String.join]

theorem getLast?_line (a : Char) (l : List Char) :
    (a :: (l ++ ['\n'])).getLast? = some '\n' := by
  rw [← List.cons_append, List.getLast?_append]
  rfl

/-- C9: each rendering is the concatenation, in the fixed order of the source, of one
newline-terminated labelled segment per exported field, whatever the field values: eight
for a `HostInfo`, eleven for a `FSInfo`, nine for a `CPUStats`; strings appear verbatim,
integers in decimal, and the unexported `uptime`, `systime` and `timeTaken` change
nothing. -/
theorem C9_fixed_field_order :
    (∀ h : HostInfo, h.String = String.join
        [labelled "OSName" ":\t" h.OSName,
          labelled "OSRelease" ":\t" h.OSRelease,
          labelled "OSVersion" ":\t" h.OSVersion,
          labelled "Platform" ":\t" h.Platform,
          labelled "HostName" ":\t" h.HostName,
          labelled "NCPUs" ":\t\t" (toString h.NCPUs),
          labelled "MaxCPUs" ":\t" (toString h.MaxCPUs),
          labelled "BitWidth" ":\t" (toString h.BitWidth)])
      ∧ (∀ fs : FSInfo, fs.String = String.join
        [labelled "DeviceName" ":\t" fs.DeviceName,
          labelled "FSType" ":\t" fs.FSType,
          labelled "MountPoint" ":\t" fs.MountPoint,
          labelled "Size" ":\t" (toString fs.Size),
          labelled "Used" ":\t" (toString fs.Used),
          labelled "Free" ":\t" (toString fs.Free),
          labelled "Available" ":\t" (toString fs.Available),
          labelled "TotalInodes" ":\t" (toString fs.TotalInodes),
          labelled "UsedInodes" ":\t" (toString fs.UsedInodes),
          labelled "FreeInodes" ":\t" (toString fs.FreeInodes),
          labelled "AvailableInodes" ":\t" (toString fs.AvailableInodes)])
      ∧ (∀ (fmtF : float64 → String) (c : CPUStats), c.String fmtF = String.join
        [labelled "User" ":\t\t" (fmtF c.User),
          labelled "Kernel" ":\t\t" (fmtF c.Kernel),
          labelled "Idle" ":\t\t" (fmtF c.Idle),
          labelled "IOWait" "\t\t" (fmtF c.IOWait),
          labelled "Swap" ":\t\t" (fmtF c.Swap),
          labelled "Nice" ":\t\t" (fmtF c.Nice),
          labelled "LoadMin1" ":\t" (fmtF c.LoadMin1),
          labelled "LoadMin5" ":\t" (fmtF c.LoadMin5),
          labelled "LoadMin15" ":\t" (fmtF c.LoadMin15)])
      ∧ (∀ (h : HostInfo) (t u : Time),
          HostInfo.String { h with uptime := t, systime := u } = h.String)
      ∧ (∀ (fmtF : float64 → String) (c : CPUStats) (t : Time),
          CPUStats.String fmtF { c with timeTaken := t } = c.String fmtF) := by
  refine ⟨HostInfo_String_eq, FSInfo_String_eq, CPUStats_String_eq, ?_, ?_⟩
  · intro h t u
    rw [HostInfo_String_eq, HostInfo_String_eq]
  · intro fmtF c t
    rw [CPUStats_String_eq, CPUStats_String_eq]

/-- C10: in the rendering of every `CPUStats` the fourth line is `IOWait`, two tabs, the
value and a newline, with no colon after the field name: it does not have the shape of
the other lines, and the text before its first colon is not the field name. -/
theorem C10_iowait_line_has_no_colon (fmtF : float64 → String) (c : CPUStats) :
    c.String fmtF
        = String.join [labelled "User" ":\t\t" (fmtF c.User),
            labelled "Kernel" ":\t\t" (fmtF c.Kernel), labelled "Idle" ":\t\t" (fmtF c.Idle)]
          ++ labelled "IOWait" "\t\t" (fmtF c.IOWait)
          ++ String.join [labelled "Swap" ":\t\t" (fmtF c.Swap),
            labelled "Nice" ":\t\t" (fmtF c.Nice), labelled "LoadMin1" ":\t" (fmtF c.LoadMin1),
            labelled "LoadMin5" ":\t" (fmtF c.LoadMin5),
            labelled "LoadMin15" ":\t" (fmtF c.LoadMin15)]
      ∧ hasLineShape "IOWait" (labelled "IOWait" "\t\t" (fmtF c.IOWait)) = false
      ∧ keyOfLine (labelled "IOWait" "\t\t" (fmtF c.IOWait)) ≠ "IOWait"
      ∧ hasLineShape "User" (labelled "User" ":\t\t" (fmtF c.User)) = true
      ∧ hasLineShape "Idle" (labelled "Idle" ":\t\t" (fmtF c.Idle)) = true := by
  refine ⟨?_, ?_, ?_, ?_, ?_⟩
  · rw [CPUStats_String_eq]
    apply String.ext
    simp [labelled, String.join]
  · simp [hasLineShape, labelled, dropLabel]
  · intro h
    have h2 := congrArg String.data h
    simp [keyOfLine, labelled, List.takeWhile] at h2
  · simp [hasLineShape, labelled, dropLabel, getLast?_line]
  · simp [hasLineShape, labelled, dropLabel, getLast?_line]

end Statgo
